import Mathlib

/-!
Shallow embedding of `src/js/modules/google-maps.js` (a Google-Maps
location-picking widget) and verification of its specification.

Modelling conventions:
* JavaScript numbers are modelled as exact rationals (`ℚ`) where they hold
  coordinates and as `Int` where the source only ever produces integers
  (`parseInt` results, zoom levels, radii in meters).
* The DOM is modelled by a `Dom` record: `querySelector` tells whether a
  selector resolves to an element, `value` gives the current live string
  value of the input behind a selector.
* JavaScript truthiness is modelled explicitly: `none`/`null` and the empty
  string are falsy, the number `0` is falsy.
* A thrown JavaScript exception is an `Except.error` (or an explicit
  `Option JsError` component where the state at the throw point matters).
-/

namespace GMaps

/-- The DOM as seen by the widget: which selectors resolve, and the live
string value of the element behind a selector. -/
structure Dom where
  querySelector : String → Bool
  value : String → String

/-- JS truthiness of an optional string (absent and `""` are falsy). -/
def strTruthy : Option String → Bool
  | none => false
  | some s => !(s == "")

/-- JS truthiness of a number (only `0` is falsy among rationals). -/
def numTruthy (q : ℚ) : Bool := !(q == 0)

/-- Evaluation of `a || b` on integers as JS performs it (`0` is falsy). -/
def jsOrInt (a b : Int) : Int := if a == 0 then b else a

/-- Evaluation of `a || b` where `a` is an optional integer (`parseInt` result: `none`
models `NaN`, which is falsy, and `0` is falsy). -/
def jsOrOptInt : Option Int → Int → Int
  | none, b => b
  | some a, b => jsOrInt a b

/-- A `{latitude, longitude}` object, as supplied in the widget options or
by the geolocation API. -/
structure LocationRec where
  latitude : ℚ
  longitude : ℚ
  deriving DecidableEq, Repr

/-- The `options.selectors` object of the source. -/
structure Selectors where
  map : Option String
  autocomplete : Option String
  radius : Option String
  country : Option String
  deriving DecidableEq, Repr

/-- The options object passed to `new MapOptions(options)` / `map.create`. -/
structure OptionsJs where
  selectors : Option Selectors
  location : Option LocationRec
  zoom : Option Int
  mapType : Option String
  hasLocationChangedListener : Bool
  deriving DecidableEq, Repr

/-- Does an optional selector resolve: it must be a truthy string and
`document.querySelector` must find an element for it. -/
def bindingResolvable (dom : Dom) (sel : Option String) : Bool :=
  strTruthy sel && dom.querySelector (sel.getD "")

/-- Resolvability of the map binding of an options object. -/
def mapBindingResolvable (dom : Dom) (o : OptionsJs) : Bool :=
  match o.selectors with
  | none => false
  | some sel => bindingResolvable dom sel.map

/-- Resolvability of the country binding of an options object. -/
def countryBindingResolvable (dom : Dom) (o : OptionsJs) : Bool :=
  match o.selectors with
  | none => false
  | some sel => bindingResolvable dom sel.country

/-- Resolvability of the autocomplete binding of an options object. -/
def autocompleteBindingResolvable (dom : Dom) (o : OptionsJs) : Bool :=
  match o.selectors with
  | none => false
  | some sel => bindingResolvable dom sel.autocomplete

/-- The `MapOptions` constructor (`google-maps.js:12-24`): throws when the
map selector is absent/unresolvable, and when a resolvable country selector
is given without a resolvable autocomplete selector; otherwise stores the
options unchanged. -/
def MapOptions.construct (dom : Dom) (o : OptionsJs) : Except String OptionsJs :=
  match o.selectors with
  | none => .error "Map element selector is required!"
  | some sel =>
    if !(strTruthy sel.map && dom.querySelector (sel.map.getD "")) then
      .error "Map element selector is required!"
    else if strTruthy sel.country && dom.querySelector (sel.country.getD "") then
      if !(strTruthy sel.autocomplete && dom.querySelector (sel.autocomplete.getD "")) then
        .error "Autocomplete input selector is required to scope autocomplete results by country!"
      else .ok o
    else .ok o

/-- Getter `get autocomplete` (`google-maps.js:38-41`): the autocomplete selector
when present and resolvable, else `''`. -/
def MapOptions.autocomplete (dom : Dom) (o : OptionsJs) : String :=
  match o.selectors with
  | none => ""
  | some sel =>
    if strTruthy sel.autocomplete && dom.querySelector (sel.autocomplete.getD "") then
      sel.autocomplete.getD ""
    else ""

/-- Getter `get radius` (`google-maps.js:47-50`): the radius selector when present
and resolvable, else `null`. -/
def MapOptions.radius (dom : Dom) (o : OptionsJs) : Option String :=
  match o.selectors with
  | none => none
  | some sel =>
    if strTruthy sel.radius && dom.querySelector (sel.radius.getD "") then
      sel.radius
    else none

/-- Getter `get zoom` (`google-maps.js:73-75`): `this._options.zoom || 11`. -/
def MapOptions.zoom (o : OptionsJs) : Int := jsOrOptInt o.zoom 11

/-- Getter `get mapType` (`google-maps.js:81-83`): `this._options.mapType || 'hybrid'`. -/
def MapOptions.mapType (o : OptionsJs) : String :=
  match o.mapType with
  | none => "hybrid"
  | some s => if s == "" then "hybrid" else s

/-- Method `hasLocation` (`google-maps.js:112-114`):
`this._options.location && this._options.location.latitude && this._options.location.longitude`,
modelled as the truthiness of that JS expression. -/
def MapOptions.hasLocation (o : OptionsJs) : Bool :=
  match o.location with
  | none => false
  | some l => numTruthy l.latitude && numTruthy l.longitude

/-- JS whitespace skipped by `parseInt`. -/
def isJsSpace (c : Char) : Bool := c == ' ' || c == '\t' || c == '\n' || c == '\r'

/-- Accumulate a run of decimal digits into a natural number. -/
def parseDigits : List Char → Nat → Nat
  | [], acc => acc
  | c :: cs, acc => parseDigits cs (acc * 10 + (c.toNat - 48))

/-- JavaScript `parseInt` on its default decimal path: skip leading
whitespace, read an optional sign and a run of decimal digits, ignore any
trailing characters; `none` models `NaN` (no digits found). -/
def parseIntJS (s : String) : Option Int :=
  let cs := s.toList.dropWhile isJsSpace
  let sgnRest : Int × List Char :=
    match cs with
    | '-' :: rest => (-1, rest)
    | '+' :: rest => (1, rest)
    | _ => (1, cs)
  let ds := sgnRest.2.takeWhile Char.isDigit
  if ds.isEmpty then none
  else some (sgnRest.1 * (parseDigits ds 0 : Int))

/-- Getter `get radiusInMeters` (`google-maps.js:89-91`): reads the live value of
the radius input and parses it, with `parseInt(...) || 5000` and `5000`
when the radius binding is absent. -/
def MapOptions.radiusInMeters (dom : Dom) (o : OptionsJs) : Int :=
  match MapOptions.radius dom o with
  | some r => jsOrOptInt (parseIntJS (dom.value r)) 5000
  | none => 5000

/-- Helper `kilometersToMeters` (`google-maps.js:277-279`). -/
def kilometersToMeters (km : Int) : Int := km * 1000

/-- Method `Map.getZoom` (`google-maps.js:269-297`) as a pure function of the
radius in meters it reads from `mapOptions.radiusInMeters`. -/
def Map.getZoom (radiusInMeters : Int) : Int :=
  if radiusInMeters ≤ kilometersToMeters 10 then 11
  else if radiusInMeters ≤ kilometersToMeters 20 then 10
  else if radiusInMeters ≤ kilometersToMeters 40 then 9
  else if radiusInMeters ≤ kilometersToMeters 75 then 8
  else if radiusInMeters ≤ kilometersToMeters 100 then 7
  else if radiusInMeters ≤ kilometersToMeters 200 then 6
  else 4

/-- C3: `zoomFor` (the source's `Map.getZoom`) is monotonically
non-increasing in the radius, the boundary radii 10000, 20000, 40000,
75000, 100000, 200000 map inclusively to zoom levels 11, 10, 9, 8, 7, 6,
and every radius above 200000 maps to 4. -/
theorem getZoom_policy :
    (∀ r r' : Int, r ≤ r' → Map.getZoom r' ≤ Map.getZoom r) ∧
    Map.getZoom 10000 = 11 ∧ Map.getZoom 20000 = 10 ∧ Map.getZoom 40000 = 9 ∧
    Map.getZoom 75000 = 8 ∧ Map.getZoom 100000 = 7 ∧ Map.getZoom 200000 = 6 ∧
    (∀ r : Int, 200000 < r → Map.getZoom r = 4) := by
  refine ⟨?_, by decide, by decide, by decide, by decide, by decide, by decide, ?_⟩
  · intro r r' h
    unfold Map.getZoom kilometersToMeters
    split_ifs <;> omega
  · intro r hr
    unfold Map.getZoom kilometersToMeters
    split_ifs <;> omega

/-- Witness for C3 at concrete radii. -/
theorem getZoom_policy_witness :
    Map.getZoom 20000 ≤ Map.getZoom 5000 ∧ Map.getZoom 987654 = 4 :=
  ⟨getZoom_policy.1 5000 20000 (by decide),
   getZoom_policy.2.2.2.2.2.2.2 987654 (by decide)⟩

/-- C4: the `MapOptions` constructor throws when the map binding is absent
or unresolvable, throws when a resolvable country binding comes without a
resolvable autocomplete binding, and succeeds (returning the options) when
map, country and autocomplete bindings all resolve. -/
theorem mapOptions_construct_validation (dom : Dom) (o : OptionsJs) :
    (mapBindingResolvable dom o = false →
      MapOptions.construct dom o = .error "Map element selector is required!") ∧
    (countryBindingResolvable dom o = true →
      autocompleteBindingResolvable dom o = false →
      ∃ e, MapOptions.construct dom o = .error e) ∧
    (mapBindingResolvable dom o = true →
      countryBindingResolvable dom o = true →
      autocompleteBindingResolvable dom o = true →
      MapOptions.construct dom o = .ok o) := by
  rcases hsel : o.selectors with _ | sel
  · refine ⟨fun _ => by simp [MapOptions.construct, hsel],
      fun h => by simp [countryBindingResolvable, hsel] at h,
      fun h => by simp [mapBindingResolvable, hsel] at h⟩
  · simp only [mapBindingResolvable, countryBindingResolvable,
      autocompleteBindingResolvable, bindingResolvable, hsel, MapOptions.construct]
    cases hm : (strTruthy sel.map && dom.querySelector (sel.map.getD "")) <;>
      cases hc : (strTruthy sel.country && dom.querySelector (sel.country.getD "")) <;>
        cases ha : (strTruthy sel.autocomplete && dom.querySelector (sel.autocomplete.getD "")) <;>
          refine ⟨fun hmap => ?_, fun hctry hauto => ?_, fun hmap hctry hauto => ?_⟩ <;>
            first
              | exact absurd hctry (by decide)
              | exact absurd hauto (by decide)
              | exact absurd hmap (by decide)
              | simp_all

/-- Witness for C4: a concrete DOM where every selector resolves, and
options supplying map, autocomplete and country selectors, construct
successfully. -/
theorem mapOptions_construct_validation_witness :
    MapOptions.construct ⟨fun _ => true, fun _ => ""⟩
      ⟨some ⟨some "#map", some "#addr", none, some "#ctry"⟩, none, none, none, false⟩ =
      .ok ⟨some ⟨some "#map", some "#addr", none, some "#ctry"⟩, none, none, none, false⟩ :=
  (mapOptions_construct_validation ⟨fun _ => true, fun _ => ""⟩
    ⟨some ⟨some "#map", some "#addr", none, some "#ctry"⟩, none, none, none, false⟩).2.2
    (by decide) (by decide) (by decide)

/-- C8: `hasLocation()` is falsy when the location is absent or either
coordinate is `0`, and truthy when both coordinates are nonzero; in
particular it is falsy for `{latitude: 0, longitude: 0}` and truthy for
`{latitude: 5.6, longitude: -0.12}`. -/
theorem hasLocation_spec (o : OptionsJs) :
    (o.location = none → MapOptions.hasLocation o = false) ∧
    (∀ l, o.location = some l → (l.latitude = 0 ∨ l.longitude = 0) →
      MapOptions.hasLocation o = false) ∧
    (∀ l, o.location = some l → l.latitude ≠ 0 → l.longitude ≠ 0 →
      MapOptions.hasLocation o = true) ∧
    MapOptions.hasLocation { o with location := some ⟨0, 0⟩ } = false ∧
    MapOptions.hasLocation { o with location := some ⟨5.6, -0.12⟩ } = true := by
  refine ⟨fun h => ?_, fun l hl hz => ?_, fun l hl h1 h2 => ?_, ?_, ?_⟩
  · simp [MapOptions.hasLocation, h]
  · rcases hz with hz | hz <;> simp [MapOptions.hasLocation, hl, numTruthy, hz]
  · simp [MapOptions.hasLocation, hl, numTruthy, h1, h2]
  · simp [MapOptions.hasLocation, numTruthy]
  · simp [MapOptions.hasLocation, numTruthy]
    norm_num

/-- Witness for C8 at a concrete options object. -/
theorem hasLocation_spec_witness :
    MapOptions.hasLocation ⟨none, some ⟨0, 3⟩, none, none, false⟩ = false ∧
    MapOptions.hasLocation ⟨none, some ⟨2, 3⟩, none, none, false⟩ = true :=
  ⟨(hasLocation_spec ⟨none, some ⟨0, 3⟩, none, none, false⟩).2.1 ⟨0, 3⟩ rfl (Or.inl rfl),
   (hasLocation_spec ⟨none, some ⟨2, 3⟩, none, none, false⟩).2.2.1 ⟨2, 3⟩ rfl
     (by norm_num) (by norm_num)⟩

/-- C9: when the radius binding is present and its live value parses to the
integer `0` (as the string `"0"` does), `radiusInMeters` falls back to the
default `5000`: the default applies to any falsy `parseInt` result. -/
theorem radiusInMeters_zero_default (dom : Dom) (o : OptionsJs) (sel : String) :
    parseIntJS "0" = some 0 ∧
    (MapOptions.radius dom o = some sel → parseIntJS (dom.value sel) = some 0 →
      MapOptions.radiusInMeters dom o = 5000) := by
  refine ⟨by decide, fun hr hv => ?_⟩
  simp [MapOptions.radiusInMeters, hr, hv, jsOrOptInt, jsOrInt]

/-- Witness for C9: a concrete DOM whose radius input holds `"0"`. -/
theorem radiusInMeters_zero_default_witness :
    MapOptions.radiusInMeters ⟨fun _ => true, fun _ => "0"⟩
      ⟨some ⟨some "#map", none, some "#rad", none⟩, none, none, none, false⟩ = 5000 :=
  (radiusInMeters_zero_default ⟨fun _ => true, fun _ => "0"⟩
    ⟨some ⟨some "#map", none, some "#rad", none⟩, none, none, none, false⟩ "#rad").2
    (by decide) (by decide)

/-! ## Geocoder (`google-maps.js:117-202`) -/

/-- Status of a geocoding response (`google.maps.GeocoderStatus`). -/
inductive GeocoderStatus where
  | OK
  | OVER_QUERY_LIMIT
  | other (code : String)
  deriving DecidableEq, Repr

/-- One entry of `results[i].address_components`. -/
structure RawAddressComponent where
  long_name : String
  short_name : String
  types : List String
  deriving DecidableEq, Repr

/-- One raw geocoding result. -/
structure RawResult where
  address_components : List RawAddressComponent
  formatted_address : String
  deriving DecidableEq, Repr

/-- One provider response: a status and the accompanying result list. -/
structure GeocodeResponse where
  status : GeocoderStatus
  results : List RawResult
  deriving DecidableEq, Repr

/-- A `{longName, shortName}` slot of the address-components record. -/
structure NamePair where
  longName : Option String
  shortName : Option String
  deriving DecidableEq, Repr

/-- The fixed address-components record built by the setter, plus the
`formattedAddress` assigned right after it (`google-maps.js:188`). -/
structure AddressComponents where
  postalCode : NamePair
  streetNumber : NamePair
  streetName : NamePair
  city : NamePair
  district : NamePair
  stateOrProvince : NamePair
  country : NamePair
  formattedAddress : String
  deriving DecidableEq, Repr

/-- The freshly initialized record of `google-maps.js:149-158`: every slot
null (`formattedAddress` is assigned later; `""` is its placeholder). -/
def emptyAddressComponents : AddressComponents :=
  { postalCode := ⟨none, none⟩, streetNumber := ⟨none, none⟩, streetName := ⟨none, none⟩,
    city := ⟨none, none⟩, district := ⟨none, none⟩, stateOrProvince := ⟨none, none⟩,
    country := ⟨none, none⟩, formattedAddress := "" }

/-- The body of the setter's loop (`google-maps.js:163-184`): an if/else-if
chain, so a component writes only the slot of the first chain category its
type tags contain (`indexOf(t) >= 0` is `contains`). -/
def applyComponent (acc : AddressComponents) (c : RawAddressComponent) : AddressComponents :=
  if c.types.contains "postal_code" then
    { acc with postalCode := ⟨some c.long_name, some c.short_name⟩ }
  else if c.types.contains "street_number" then
    { acc with streetNumber := ⟨some c.long_name, some c.short_name⟩ }
  else if c.types.contains "route" then
    { acc with streetName := ⟨some c.long_name, some c.short_name⟩ }
  else if c.types.contains "locality" then
    { acc with city := ⟨some c.long_name, some c.short_name⟩ }
  else if c.types.contains "sublocality" then
    { acc with district := ⟨some c.long_name, some c.short_name⟩ }
  else if c.types.contains "administrative_area_level_1" then
    { acc with stateOrProvince := ⟨some c.long_name, some c.short_name⟩ }
  else if c.types.contains "country" then
    { acc with country := ⟨some c.long_name, some c.short_name⟩ }
  else acc

/-- Setter `set addressComponents` (`google-maps.js:148-189`) applied to
`results[0]`: loops over `address_components` from the last index down to
index 0 (hence `reverse.foldl`), then assigns `formattedAddress`. -/
def mkAddressComponents (r : RawResult) : AddressComponents :=
  { r.address_components.reverse.foldl applyComponent emptyAddressComponents with
    formattedAddress := r.formatted_address }

/-- The geocoder's only piece of state: `this._addressComponents`. -/
structure GeocoderState where
  _addressComponents : Option AddressComponents
  deriving DecidableEq, Repr

/-- The stateful setter: assigns the freshly built record. -/
def Geocoder.setAddressComponents (g : GeocoderState) (r : RawResult) : GeocoderState :=
  { g with _addressComponents := some (mkAddressComponents r) }

/-- One call to `Geocoder.geocode` (`google-maps.js:123-142`), driven by the
sequence of provider responses that this call and the retries it spawns will
receive in order (head = response to this request). Returns the geocoder
state after the whole retry chain has run, and the settlement of THIS call's
promise (`none` = the promise never settles). On `OVER_QUERY_LIMIT` the
source runs `setTimeout(function () { self.geocode(options); }, 1e3)`:
the retry is issued, but its promise — and hence its settlement — is
discarded, and the outer promise's `resolve`/`reject` are never called. -/
def Geocoder.geocodeRun (g : GeocoderState) :
    List GeocodeResponse → GeocoderState × Option (Except GeocoderStatus AddressComponents)
  | [] => (g, none)
  | resp :: rest =>
    match resp.status, resp.results with
    | .OK, r :: _ =>
      (Geocoder.setAddressComponents g r, some (.ok (mkAddressComponents r)))
    | .OVER_QUERY_LIMIT, _ =>
      ((Geocoder.geocodeRun g rest).1, none)
    | status, _ => (g, some (.error status))

/-- Modelled from the spec: the settlement the claim describes — skip
rate-limited responses and settle with the first non-rate-limited outcome.
For comparison with `Geocoder.geocodeRun`. -/
def claimedSettlement :
    List GeocodeResponse → Option (Except GeocoderStatus AddressComponents)
  | [] => none
  | resp :: rest =>
    match resp.status, resp.results with
    | .OK, r :: _ => some (.ok (mkAddressComponents r))
    | .OVER_QUERY_LIMIT, _ => claimedSettlement rest
    | status, _ => some (.error status)

/-- A rate-limited response followed by a successful one. -/
def rlResponse : GeocodeResponse := ⟨.OVER_QUERY_LIMIT, []⟩

/-- The successful retry result used in the rate-limit scenario. -/
def okResult : RawResult := ⟨[⟨"Accra", "Accra", ["locality"]⟩], "Accra, Ghana"⟩

/-- C1 (code bug): with the response sequence `OVER_QUERY_LIMIT` then `OK`,
the retry runs and even stores the parsed address in the geocoder state,
but the promise returned by the original `geocode` call never settles —
the `OVER_QUERY_LIMIT` branch re-issues the request inside `setTimeout`
without resolving the outer promise — while the claim (and the spec's
intent) is that the original promise settles with the retry's outcome. -/
theorem geocode_rate_limit_never_settles :
    (Geocoder.geocodeRun ⟨none⟩ [rlResponse, ⟨.OK, [okResult]⟩]).2 = none ∧
    (Geocoder.geocodeRun ⟨none⟩ [rlResponse, ⟨.OK, [okResult]⟩]).1._addressComponents =
      some (mkAddressComponents okResult) ∧
    claimedSettlement [rlResponse, ⟨.OK, [okResult]⟩] =
      some (.ok (mkAddressComponents okResult)) :=
  ⟨rfl, rfl, rfl⟩

/-- The first chain category (in the if/else-if priority order of the
setter's loop body) matched by a component's type tags. -/
def primaryTag (c : RawAddressComponent) : Option String :=
  if c.types.contains "postal_code" then some "postal_code"
  else if c.types.contains "street_number" then some "street_number"
  else if c.types.contains "route" then some "route"
  else if c.types.contains "locality" then some "locality"
  else if c.types.contains "sublocality" then some "sublocality"
  else if c.types.contains "administrative_area_level_1" then some "administrative_area_level_1"
  else if c.types.contains "country" then some "country"
  else none

/-- The name pair of the first component in list order whose primary tag is
`tag`; a null pair when there is none. -/
def firstWithPrimary (cs : List RawAddressComponent) (tag : String) : NamePair :=
  match cs with
  | [] => ⟨none, none⟩
  | c :: rest =>
    if primaryTag c = some tag then ⟨some c.long_name, some c.short_name⟩
    else firstWithPrimary rest tag

/-- Modelled from the spec: the name pair of the first component in list
order whose type tags contain `tag` at all — the claim's reading of the
slot assignment, for comparison with `mkAddressComponents`. -/
def firstWithTag (cs : List RawAddressComponent) (tag : String) : NamePair :=
  match cs with
  | [] => ⟨none, none⟩
  | c :: rest =>
    if c.types.contains tag then ⟨some c.long_name, some c.short_name⟩
    else firstWithTag rest tag

/-- Modelled from the spec: the record the claim describes, each slot taken
from the first component whose type tags include the slot's category. -/
def mkAddressComponentsClaimed (r : RawResult) : AddressComponents :=
  { postalCode := firstWithTag r.address_components "postal_code",
    streetNumber := firstWithTag r.address_components "street_number",
    streetName := firstWithTag r.address_components "route",
    city := firstWithTag r.address_components "locality",
    district := firstWithTag r.address_components "sublocality",
    stateOrProvince := firstWithTag r.address_components "administrative_area_level_1",
    country := firstWithTag r.address_components "country",
    formattedAddress := r.formatted_address }

/-- A result whose first component carries both a higher-priority tag
(`postal_code`) and `locality`, and whose second component carries only
`locality`. -/
def cexResult : RawResult :=
  ⟨[⟨"Alpha", "A", ["postal_code", "locality"]⟩, ⟨"Beta", "B", ["locality"]⟩], "cex"⟩

/-- C2 counterexample: on `cexResult` the code puts the SECOND component
into the `city` slot — the first component's `locality` tag is shadowed by
its `postal_code` tag in the else-if chain — whereas the claim's
first-component-whose-tags-include reading demands the first. -/
theorem addressComponents_first_tag_counterexample :
    (mkAddressComponents cexResult).city = ⟨some "Beta", some "B"⟩ ∧
    (mkAddressComponentsClaimed cexResult).city = ⟨some "Alpha", some "A"⟩ ∧
    mkAddressComponents cexResult ≠ mkAddressComponentsClaimed cexResult :=
  ⟨rfl, rfl, by decide⟩

/-- The loop of the setter, re-expressed: folding `applyComponent` from the
last component to the first gives, in each slot, the first component in
list order whose primary (highest-priority matching) tag is that slot's
category. -/
theorem applyComponent_foldr (cs : List RawAddressComponent) :
    cs.foldr (fun c a => applyComponent a c) emptyAddressComponents =
      { postalCode := firstWithPrimary cs "postal_code",
        streetNumber := firstWithPrimary cs "street_number",
        streetName := firstWithPrimary cs "route",
        city := firstWithPrimary cs "locality",
        district := firstWithPrimary cs "sublocality",
        stateOrProvince := firstWithPrimary cs "administrative_area_level_1",
        country := firstWithPrimary cs "country",
        formattedAddress := "" } := by
  induction cs with
  | nil => rfl
  | cons c cs ih =>
    simp only [List.foldr_cons, ih, firstWithPrimary]
    by_cases h1 : "postal_code" ∈ c.types
    · simp [applyComponent, primaryTag, h1]
    by_cases h2 : "street_number" ∈ c.types
    · simp [applyComponent, primaryTag, h1, h2]
    by_cases h3 : "route" ∈ c.types
    · simp [applyComponent, primaryTag, h1, h2, h3]
    by_cases h4 : "locality" ∈ c.types
    · simp [applyComponent, primaryTag, h1, h2, h3, h4]
    by_cases h5 : "sublocality" ∈ c.types
    · simp [applyComponent, primaryTag, h1, h2, h3, h4, h5]
    by_cases h6 : "administrative_area_level_1" ∈ c.types
    · simp [applyComponent, primaryTag, h1, h2, h3, h4, h5, h6]
    by_cases h7 : "country" ∈ c.types
    · simp [applyComponent, primaryTag, h1, h2, h3, h4, h5, h6, h7]
    · simp [applyComponent, primaryTag, h1, h2, h3, h4, h5, h6, h7]

/-- C2 (amended): each slot of the record is the short/long names of the
first component, in list order, whose highest-priority matching type tag
(per the chain order postal_code, street_number, route, locality,
sublocality, administrative_area_level_1, country) is that slot's category;
slots with no such component are null; and the stored record is rebuilt
fresh — independent of any previously stored components. -/
theorem addressComponents_amended (r : RawResult) (g g' : GeocoderState) :
    mkAddressComponents r =
      { postalCode := firstWithPrimary r.address_components "postal_code",
        streetNumber := firstWithPrimary r.address_components "street_number",
        streetName := firstWithPrimary r.address_components "route",
        city := firstWithPrimary r.address_components "locality",
        district := firstWithPrimary r.address_components "sublocality",
        stateOrProvince := firstWithPrimary r.address_components "administrative_area_level_1",
        country := firstWithPrimary r.address_components "country",
        formattedAddress := r.formatted_address } ∧
    (Geocoder.setAddressComponents g r)._addressComponents =
      (Geocoder.setAddressComponents g' r)._addressComponents := by
  constructor
  · unfold mkAddressComponents
    rw [List.foldl_reverse r.address_components applyComponent emptyAddressComponents]
    rw [applyComponent_foldr]
  · rfl

/-! ## Map (`google-maps.js:204-476`) -/

/-- A `google.maps.LatLng` value (the Map Provider is a collaborator, so the
constructor is modelled as carrying the two coordinates). -/
structure LatLng where
  lat : ℚ
  lng : ℚ
  deriving DecidableEq, Repr

/-- The rendered `google.maps.Map` object (the fields `create` passes). -/
structure GMapState where
  center : LatLng
  zoom : Int
  mapTypeId : String
  draggable : Bool
  deriving DecidableEq, Repr

/-- The rendered `google.maps.Marker` object. -/
structure MarkerState where
  position : LatLng
  draggable : Bool
  deriving DecidableEq, Repr

/-- The rendered `google.maps.Circle` object (the geometry fields). -/
structure CircleState where
  center : LatLng
  radius : Int
  deriving DecidableEq, Repr

/-- The `Map` instance's fields (`google-maps.js:205-215`). -/
structure MapState where
  _isLoaded : Bool
  _gMap : Option GMapState
  _marker : Option MarkerState
  _circle : Option CircleState
  _geocoder : Option GeocoderState
  _currentLocation : Option LatLng
  _autocompleteAttached : Bool
  _radiusListenerAttached : Bool
  deriving DecidableEq, Repr

/-- A thrown JavaScript exception. -/
inductive JsError where
  | typeError
  deriving DecidableEq, Repr

/-- The argument shapes `updateLocation` / the `currentLocation` setter can
receive: `null`/`undefined`, a `{latitude, longitude}` object, or an
existing `LatLng`. -/
inductive JsLoc where
  | null
  | coords (r : LocationRec)
  | latLng (p : LatLng)
  deriving DecidableEq, Repr

/-- JS truthiness of such an argument. -/
def jsLocTruthy : JsLoc → Bool
  | .null => false
  | _ => true

/-- The normalization in `set currentLocation` (`google-maps.js:245-247`):
a non-`LatLng` value goes through
`new google.maps.LatLng(location.latitude, location.longitude)`; reading
`.latitude` of `null`/`undefined` throws a TypeError. -/
def normalizeLatLng : JsLoc → Except JsError LatLng
  | .null => .error .typeError
  | .coords r => .ok ⟨r.latitude, r.longitude⟩
  | .latLng p => .ok p

/-- Setter `set currentLocation` (`google-maps.js:244-255`): normalize, then assign
`this._currentLocation`. The throw happens before any assignment. -/
def Map.setCurrentLocation (s : MapState) (loc : JsLoc) :
    Except JsError (MapState × LatLng) :=
  (normalizeLatLng loc).map fun c => ({ s with _currentLocation := some c }, c)

/-- The re-centering block of `updateLocation` (`google-maps.js:467-474`):
`_gMap.setCenter` is unguarded (a missing map throws a TypeError), the
marker and circle updates are guarded by `if`. Returns the state at exit
together with the escaped exception, if any. -/
def Map.recenter (s : MapState) (c : LatLng) : MapState × Option JsError :=
  match s._gMap with
  | none => (s, some .typeError)
  | some m =>
    let s1 := { s with _gMap := some { m with center := c } }
    let s2 := match s1._marker with
      | some mk => { s1 with _marker := some { mk with position := c } }
      | none => s1
    let s3 := match s2._circle with
      | some ci => { s2 with _circle := some { ci with center := c } }
      | none => s2
    (s3, none)

/-- Method `Map.updateLocation` (`google-maps.js:463-475`): the `if` condition is
an assignment, so the `currentLocation` setter runs first — throwing on a
`null`/`undefined` argument before any state change — and the value the
`if` then tests is the raw right-hand side's truthiness. -/
def Map.updateLocation (s : MapState) (loc : JsLoc) : MapState × Option JsError :=
  match Map.setCurrentLocation s loc with
  | .error e => (s, some e)
  | .ok (s1, c) =>
    if jsLocTruthy loc then Map.recenter s1 c
    else (s1, none)

/-- C6: `updateLocation` is idempotent — calling it twice with the same
coordinate leaves the map, the marker and the circle in the same final
state (in particular the same centers) as calling it once. -/
theorem updateLocation_idempotent (s : MapState) (c : LocationRec) :
    (Map.updateLocation (Map.updateLocation s (.coords c)).1 (.coords c)).1._gMap =
      (Map.updateLocation s (.coords c)).1._gMap ∧
    (Map.updateLocation (Map.updateLocation s (.coords c)).1 (.coords c)).1._marker =
      (Map.updateLocation s (.coords c)).1._marker ∧
    (Map.updateLocation (Map.updateLocation s (.coords c)).1 (.coords c)).1._circle =
      (Map.updateLocation s (.coords c)).1._circle := by
  rcases s with ⟨il, gm, mk, ci, gc, cl, aa, ra⟩
  cases gm <;> cases mk <;> cases ci <;>
    simp [Map.updateLocation, Map.setCurrentLocation, normalizeLatLng, jsLocTruthy,
      Map.recenter, Except.map]

/-- C10: calling `updateLocation` with `null`/`undefined` throws a
TypeError in the coordinate-normalization step (reading `.latitude` of the
argument) and leaves the whole state — in particular the map, marker and
circle centers — unchanged: an exception escapes (not a silent no-op) and
no state update happens (not an unconditional update). -/
theorem updateLocation_null_typeError (s : MapState) :
    Map.updateLocation s .null = (s, some .typeError) := rfl

/-- Calls made to the Geocoding Provider during a handler run. -/
inductive ProviderCall where
  | geocode (location : LatLng)
  deriving DecidableEq, Repr

/-- The radius-input change handler (`google-maps.js:449-459`):
`updateCircleRadius` sets the circle's radius to the live
`mapOptions.radiusInMeters` and re-applies `getZoom()` (which re-reads the
same live value) to the map. The returned list records every geocoding
call the handler performs — the body contains none. -/
def Map.radiusListener (dom : Dom) (o : OptionsJs) (s : MapState) :
    MapState × Option JsError × List ProviderCall :=
  match s._circle with
  | none => (s, some .typeError, [])
  | some ci =>
    let s1 := { s with _circle := some { ci with radius := MapOptions.radiusInMeters dom o } }
    match s1._gMap with
    | none => (s1, some .typeError, [])
    | some m =>
      ({ s1 with _gMap := some { m with zoom := Map.getZoom (MapOptions.radiusInMeters dom o) } },
       none, [])

/-- C7: a radius-handler invocation re-reads the live radius value, sets
the circle's radius to it and the map's zoom to `getZoom` of it, while
keeping the map center, the marker, the circle center, the current
location and the address data unchanged, and performs no geocoding call. -/
theorem radiusListener_spec (dom : Dom) (o : OptionsJs) (s : MapState)
    (ci : CircleState) (m : GMapState)
    (hci : s._circle = some ci) (hm : s._gMap = some m) :
    (Map.radiusListener dom o s).1._circle =
      some ⟨ci.center, MapOptions.radiusInMeters dom o⟩ ∧
    (Map.radiusListener dom o s).1._gMap =
      some ⟨m.center, Map.getZoom (MapOptions.radiusInMeters dom o), m.mapTypeId, m.draggable⟩ ∧
    (Map.radiusListener dom o s).1._marker = s._marker ∧
    (Map.radiusListener dom o s).1._currentLocation = s._currentLocation ∧
    (Map.radiusListener dom o s).1._geocoder = s._geocoder ∧
    (Map.radiusListener dom o s).2.1 = none ∧
    (Map.radiusListener dom o s).2.2 = [] := by
  rcases ci with ⟨cic, cir⟩
  rcases m with ⟨mc, mz, mt, md⟩
  simp [Map.radiusListener, hci, hm]

/-- Witness for C7 at a concrete DOM, options and widget state. -/
theorem radiusListener_spec_witness :
    (Map.radiusListener ⟨fun _ => true, fun _ => "750"⟩
        ⟨some ⟨some "#map", none, some "#rad", none⟩, none, none, none, false⟩
        ⟨true, some ⟨⟨1, 2⟩, 11, "hybrid", false⟩, some ⟨⟨1, 2⟩, false⟩,
         some ⟨⟨1, 2⟩, 5000⟩, some ⟨none⟩, some ⟨1, 2⟩, false, true⟩).1._circle =
      some ⟨⟨1, 2⟩, MapOptions.radiusInMeters ⟨fun _ => true, fun _ => "750"⟩
        ⟨some ⟨some "#map", none, some "#rad", none⟩, none, none, none, false⟩⟩ ∧
    (Map.radiusListener ⟨fun _ => true, fun _ => "750"⟩
        ⟨some ⟨some "#map", none, some "#rad", none⟩, none, none, none, false⟩
        ⟨true, some ⟨⟨1, 2⟩, 11, "hybrid", false⟩, some ⟨⟨1, 2⟩, false⟩,
         some ⟨⟨1, 2⟩, 5000⟩, some ⟨none⟩, some ⟨1, 2⟩, false, true⟩).2.2 = [] := by
  have h := radiusListener_spec ⟨fun _ => true, fun _ => "750"⟩
    ⟨some ⟨some "#map", none, some "#rad", none⟩, none, none, none, false⟩
    ⟨true, some ⟨⟨1, 2⟩, 11, "hybrid", false⟩, some ⟨⟨1, 2⟩, false⟩,
     some ⟨⟨1, 2⟩, 5000⟩, some ⟨none⟩, some ⟨1, 2⟩, false, true⟩
    ⟨⟨1, 2⟩, 5000⟩ ⟨⟨1, 2⟩, 11, "hybrid", false⟩ rfl rfl
  exact ⟨h.1, h.2.2.2.2.2.2⟩

/-- The hardcoded fallback coordinate of `getLocationError`
(`google-maps.js:338`), with the source's exact numeric literals. -/
def defaultLocation : LatLng := ⟨5.6044018, -0.12188990000000001⟩

/-- The configured `{latitude, longitude}` object as a `LatLng` (the
`currentLocation` setter's normalization on the config path); `create` only
reaches this when `hasLocation()` held, so the location is present there. -/
def locationToLatLng : Option LocationRec → LatLng
  | some l => ⟨l.latitude, l.longitude⟩
  | none => ⟨0, 0⟩

/-- Function `createMap` (`google-maps.js:347-369`) together with `addCircle`,
`setupAutocompleteListener` and `registerRadiusInputListener`: renders the
map, marker, geocoder and circle at the current location `loc` and attaches
the optional autocomplete and radius listeners. -/
def Map.createMap (dom : Dom) (o : OptionsJs) (s : MapState) (loc : LatLng) : MapState :=
  { s with
    _gMap := some
      { center := loc,
        zoom := jsOrInt (Map.getZoom (MapOptions.radiusInMeters dom o)) (MapOptions.zoom o),
        mapTypeId := MapOptions.mapType o,
        draggable := false },
    _marker := some { position := loc, draggable := false },
    _geocoder := some ⟨none⟩,
    _circle := some { center := loc, radius := MapOptions.radiusInMeters dom o },
    _autocompleteAttached := !(MapOptions.autocomplete dom o == ""),
    _radiusListenerAttached := (MapOptions.radius dom o).isSome }

/-- Method `Map.create` (`google-maps.js:299-461`): construct `MapOptions`
(propagating its throw), fail when the map library has not loaded, then
resolve the initial coordinate — the configured location when
`hasLocation()`, else the device position `geo`, else the hardcoded
default — set `currentLocation` and render via `createMap`. -/
def Map.create (dom : Dom) (s : MapState) (options : OptionsJs)
    (geo : Option LocationRec) : Except String MapState :=
  match MapOptions.construct dom options with
  | .error e => .error e
  | .ok o =>
    if !s._isLoaded then .error "Map library not loaded!"
    else if !(MapOptions.hasLocation o) then
      match geo with
      | some p =>
        .ok (Map.createMap dom o
          { s with _currentLocation := some ⟨p.latitude, p.longitude⟩ }
          ⟨p.latitude, p.longitude⟩)
      | none =>
        .ok (Map.createMap dom o
          { s with _currentLocation := some defaultLocation } defaultLocation)
    else
      .ok (Map.createMap dom o
        { s with _currentLocation := some (locationToLatLng o.location) }
        (locationToLatLng o.location))

/-- A DOM where every selector resolves and every input is empty. -/
def cexDom : Dom := ⟨fun _ => true, fun _ => ""⟩

/-- A loaded, not yet rendered widget state. -/
def cexState : MapState := ⟨true, none, none, none, none, none, false, false⟩

/-- Options with only a map selector: no initial location. -/
def cexOptions : OptionsJs := ⟨some ⟨some "#map", none, none, none⟩, none, none, none, false⟩

/-- C5 counterexample: with no initial location and geolocation
unavailable, the rendered center is the source's hardcoded literal
(5.6044018, -0.12188990000000001); its longitude is NOT the claim's
-0.1218899 (the two decimals also denote distinct IEEE-754 doubles, one
unit in the last place apart). -/
theorem create_default_longitude_counterexample :
    ((Map.create cexDom cexState cexOptions none).toOption.bind MapState._gMap).map
        GMapState.center = some ⟨5.6044018, -0.12188990000000001⟩ ∧
    ((Map.create cexDom cexState cexOptions none).toOption.bind MapState._gMap).map
        GMapState.center ≠ some ⟨5.6044018, -0.1218899⟩ := by
  have h1 : ((Map.create cexDom cexState cexOptions none).toOption.bind MapState._gMap).map
      GMapState.center = some ⟨5.6044018, -0.12188990000000001⟩ := rfl
  refine ⟨h1, ?_⟩
  rw [h1]
  simp only [ne_eq, Option.some.injEq, LatLng.mk.injEq, not_and]
  intro _
  norm_num

/-- C5 (amended): when the configuration constructs, the map library is
loaded, no (truthy) initial location is configured and device geolocation
is unavailable or fails, `create` completes and renders the map (and the
marker and circle) centered at the hardcoded default coordinate
(5.6044018, -0.12188990000000001). -/
theorem create_geolocation_fallback (dom : Dom) (s : MapState) (o : OptionsJs)
    (hok : MapOptions.construct dom o = .ok o)
    (hload : s._isLoaded = true)
    (hnoloc : MapOptions.hasLocation o = false) :
    ∃ st, Map.create dom s o none = .ok st ∧
      st._currentLocation = some defaultLocation ∧
      st._gMap.map GMapState.center = some defaultLocation ∧
      st._marker.map MarkerState.position = some defaultLocation ∧
      st._circle.map CircleState.center = some defaultLocation ∧
      defaultLocation = ⟨5.6044018, -0.12188990000000001⟩ := by
  have hc : Map.create dom s o none =
      .ok (Map.createMap dom o { s with _currentLocation := some defaultLocation }
        defaultLocation) := by
    simp [Map.create, hok, hload, hnoloc]
  exact ⟨_, hc, by simp [Map.createMap], by simp [Map.createMap], by simp [Map.createMap],
    by simp [Map.createMap], rfl⟩

/-- Witness for C5 at the concrete DOM, state and options above. -/
theorem create_geolocation_fallback_witness :
    ∃ st, Map.create cexDom cexState cexOptions none = .ok st ∧
      st._currentLocation = some defaultLocation ∧
      st._gMap.map GMapState.center = some defaultLocation ∧
      st._marker.map MarkerState.position = some defaultLocation ∧
      st._circle.map CircleState.center = some defaultLocation ∧
      defaultLocation = ⟨5.6044018, -0.12188990000000001⟩ :=
  create_geolocation_fallback cexDom cexState cexOptions rfl rfl rfl

end GMaps
